import Mathlib

/-!
Shallow embedding of `src/isolate/run_test_from_archive.py` (the test-isolation
runner core): manifest loading and validation, the priority-retry worker pool
(`Remote`), the LRU cache (`Cache`), and the control flow of `run_tha_test`.
Python integers are modelled as `Nat`/`Int`; the bitmask
`priority & INTERNAL_PRIORITY_BITS` (mask `(1<<8)-1`) is embedded as `% 256`.
Exceptions are modelled with `Except`; Python 2 value equality between an
`int` and a `str` (which is `False`) is embedded explicitly.
-/

namespace RunTestFromArchive

/-! ### Python 2 values and dynamic equality

`Remote.get_result` compares the first tuple slot `r[0]` (an `int` for every
entry the code ever enqueues) against the string literal "-1".  In Python 2,
`int == str` is `False` regardless of the digits, so the comparison must be
embedded over a dynamic value type, not over `Int`. -/

/-- A Python value appearing in the first slot of a `_done` queue tuple. -/
inductive PyVal where
  | int (n : Int)
  | str (s : String)
deriving DecidableEq, Repr

/-- Python 2 `==` on `PyVal`: equal ints or equal strings; an `int` never
equals a `str` (so comparing -1 with "-1" yields `False`). -/
def pyEq : PyVal → PyVal → Bool
  | PyVal.int a, PyVal.int b => a == b
  | PyVal.str a, PyVal.str b => a == b
  | _, _ => false

/-! ### Remote: completion queue entries and `get_result`

`Remote._run` pushes `(priority, index, obj)` on success and
`(-1, 0, sys.exc_info())` on failure (lines 351, 354, 356).
`Remote.get_result` (lines 305-311) pops the next entry `r` and re-raises
only when `r[0]` equals the string "-1"; otherwise it returns `r[2]`. -/

/-- An `exc_info` triple `(type, value, traceback)`, abstracted as strings. -/
structure ExcInfo where
  ty : String
  val : String
  tb : String
deriving DecidableEq, Repr

/-- The third slot of a `_done` entry: a fetched object name on success, or
the captured `exc_info` on failure. -/
inductive DonePayload where
  | obj (name : String)
  | excInfo (e : ExcInfo)
deriving DecidableEq, Repr

/-- One entry of the `_done` priority queue: `(priority, index, payload)`. -/
structure DoneEntry where
  priority : PyVal
  index : Int
  payload : DonePayload
deriving DecidableEq, Repr

/-- Outcome of `Remote.get_result` on one popped entry: either the Python
`raise` of the stored `exc_info`, or a normal return of `r[2]`. -/
inductive GetResultOutcome where
  | raised (e : ExcInfo)
  | returned (p : DonePayload)
deriving DecidableEq, Repr

/-- `Remote.get_result`, lines 305-311: pop `r`; if `r[0]` equals the string "-1" re-raise
the stored exception (`raise r[2][0], r[2][1], r[2][2]` requires the payload
to be an `exc_info` triple); otherwise return `r[2]`. -/
def get_result (r : DoneEntry) : GetResultOutcome :=
  if pyEq r.priority (PyVal.str "-1") then
    match r.payload with
    | DonePayload.excInfo e => GetResultOutcome.raised e
    | DonePayload.obj _ => GetResultOutcome.returned r.payload
  else
    GetResultOutcome.returned r.payload

/-- The entry `Remote._run` pushes to `_done` when a fetch ultimately fails
(lines 351 and 354): `self._done.put((-1, 0, sys.exc_info()))`, with the
integer `-1` as priority. -/
def failureDoneEntry (e : ExcInfo) : DoneEntry :=
  { priority := PyVal.int (-1), index := 0, payload := DonePayload.excInfo e }

/-- The entry `Remote._run` pushes on success (line 356):
`self._done.put((priority, index, obj))`. -/
def successDoneEntry (priority : Nat) (index : Int) (obj : String) : DoneEntry :=
  { priority := PyVal.int priority, index := index, payload := DonePayload.obj obj }

/-! ### Remote: retry loop for a persistently failing fetch

`Remote._run` (lines 330-356), specialised to an item whose `_do_item`
raises `IOError` on every invocation.  The worker pops the item, calls
`_do_item` (one attempt), and on `IOError` either re-enqueues it at
`priority + 1` when `(priority & INTERNAL_PRIORITY_BITS) < 5`, or pushes the
exception entry to `_done` and stops touching the item.  The low 8 bits of
the priority are the retry counter, so the mask is embedded as `% 256`. -/

/-- `Remote.INTERNAL_PRIORITY_BITS = (1<<8) - 1`. -/
def INTERNAL_PRIORITY_BITS : Nat := 255

/-- `Remote.LOW = 1<<8`. -/
def LOW : Nat := 256

/-- `Remote.MED = 2<<8`. -/
def MED : Nat := 512

/-- `Remote.HIGH = 3<<8`. -/
def HIGH : Nat := 768

/-- Trace of one enqueued item whose backing fetch always raises `IOError`:
how many times `_do_item` was invoked, the priority at the final attempt,
and the entry pushed to `_done` at the end. -/
structure RetryTrace where
  attempts : Nat
  finalPriority : Nat
  pushed : DoneEntry
deriving Repr

/-- Worker-loop behaviour (lines 342-354) for an item whose `_do_item`
raises `IOError` at every attempt, starting at `priority`: each attempt
invokes the fetch once; while `priority % 256 < 5` (the masked retry
counter below 5) the item is re-enqueued at `priority + 1`; at counter 5 the
exception entry `(-1, 0, exc_info)` is pushed and the item is dropped. -/
def retryAlwaysIOError (e : ExcInfo) (priority : Nat) : RetryTrace :=
  if h : priority % 256 < 5 then
    let t := retryAlwaysIOError e (priority + 1)
    { attempts := 1 + t.attempts, finalPriority := t.finalPriority,
      pushed := t.pushed }
  else
    { attempts := 1, finalPriority := priority, pushed := failureDoneEntry e }
termination_by 5 - priority % 256
decreasing_by
  have h2 : (priority + 1) % 256 = priority % 256 + 1 := by omega
  omega

/-! ### `load_manifest` (lines 173-230)

The manifest is a parsed JSON document.  `load_manifest` walks the top-level
dict and validates each key.  The embedding keeps the Python local-variable
behaviour that decides claim C3: the `Unknown key` branch at line 228
formats the message with `subkey`, a variable only ever assigned inside the
`files` loop, so when no `files` entry has been iterated yet the branch
raises `UnboundLocalError`, not `ConfigError`.  Likewise `RE_IS_SHA1.match`
raises `TypeError` when the `sha-1` value is not a string. -/

/-- A parsed JSON value (what `json.loads` can produce).  Objects keep their
entries as an ordered association list standing for the dict iteration
order. -/
inductive JsonVal where
  | str (s : String)
  | int (n : Int)
  | bool (b : Bool)
  | null
  | list (xs : List JsonVal)
  | obj (kvs : List (String × JsonVal))

/-- The exception kinds `load_manifest` can raise.  `configError` is the
intended one; `unboundLocal` models Python raising `UnboundLocalError` when
the line-228 message references the never-assigned `subkey`; `typeError`
models `re.match` applied to a non-string `sha-1` value. -/
inductive PyExc where
  | configError (msg : String)
  | unboundLocal (name : String)
  | typeError (msg : String)
deriving DecidableEq, Repr

/-- `isinstance(v, basestring)`. -/
def isStr : JsonVal → Bool
  | JsonVal.str _ => true
  | _ => false

/-- `isinstance(v, int)`.  In Python 2, `bool` is a subclass of `int`, so a
boolean passes this check. -/
def isInt : JsonVal → Bool
  | JsonVal.int _ => true
  | JsonVal.bool _ => true
  | _ => false

/-- `isinstance(v, bool)`. -/
def isBool : JsonVal → Bool
  | JsonVal.bool _ => true
  | _ => false

/-- `RE_IS_SHA1`, the compiled regex `^[a-fA-F0-9]\x7b40\x7d$`, applied with
`.match`.  Python `$` also matches just before one trailing newline, so the
regex accepts exactly 40 hex digits, optionally followed by one `\n`. -/
def matchesSha1 (s : String) : Bool :=
  let cs := s.data
  (cs.length = 40 && cs.all (fun c => c.isDigit || ('a' ≤ c && c ≤ 'f') || ('A' ≤ c && c ≤ 'F')))
  || (cs.length = 41 && cs.getLast? = some '\n'
      && (cs.take 40).all (fun c => c.isDigit || ('a' ≤ c && c ≤ 'f') || ('A' ≤ c && c ≤ 'F')))

/-- Dict key membership: `k in d` over the association-list embedding. -/
def hasKey (kvs : List (String × JsonVal)) (k : String) : Bool :=
  kvs.any (fun kv => kv.1 = k)

/-- The inner loop over one file entry dict (lines 200-214): validates each
per-file key and returns the last `subkey` value bound so far (the Python
loop variable `subkey` is the file name, already bound by the caller; this
checks the sub-entries).  Raises `ConfigError` on a bad value or an unknown
per-file key, `TypeError` when `sha-1` holds a non-string. -/
def checkFileProps : List (String × JsonVal) → Except PyExc Unit
  | [] => Except.ok ()
  | (subsubkey, subsubvalue) :: rest =>
    if subsubkey = "link" then
      if isStr subsubvalue then checkFileProps rest
      else Except.error (PyExc.configError "Expected string")
    else if subsubkey = "mode" then
      if isInt subsubvalue then checkFileProps rest
      else Except.error (PyExc.configError "Expected int")
    else if subsubkey = "sha-1" then
      match subsubvalue with
      | JsonVal.str s =>
        if matchesSha1 s then checkFileProps rest
        else Except.error (PyExc.configError "Expected sha-1")
      | _ => Except.error (PyExc.typeError "expected string or buffer")
    else if subsubkey = "timestamp" then
      if isInt subsubvalue then checkFileProps rest
      else Except.error (PyExc.configError "Expected int")
    else
      Except.error (PyExc.configError "Unknown key (per-file)")

/-- The loop over the `files` dict (lines 195-217).  Each iteration binds the
Python local `subkey` to the file name; the function returns the value
`subkey` holds after the loop (so a later `Unknown key` at top level formats
with it).  After the per-key loop, an entry holding both `sha-1` and `link`
is a `ConfigError`. -/
def checkFiles (subkey0 : Option String) :
    List (String × JsonVal) → Except PyExc (Option String)
  | [] => Except.ok subkey0
  | (subkey, subvalue) :: rest =>
    match subvalue with
    | JsonVal.obj props =>
      match checkFileProps props with
      | Except.error e => Except.error e
      | Except.ok () =>
        if hasKey props "sha-1" && hasKey props "link" then
          Except.error (PyExc.configError "Did not expect both sha-1 and link")
        else
          checkFiles (some subkey) rest
    | _ => Except.error (PyExc.configError "Expected dict")

/-- The top-level loop of `load_manifest` (lines 184-228), carrying the
binding state of the Python local `subkey` (`none` = never assigned).  The
final `else` branch is `raise ConfigError(..Unknown key %s.. % subkey)`: when
`subkey` is unbound, evaluating the message raises `UnboundLocalError`
before any `ConfigError` is constructed. -/
def checkTopLevel (subkey : Option String) :
    List (String × JsonVal) → Except PyExc Unit
  | [] => Except.ok ()
  | (key, value) :: rest =>
    if key = "command" then
      match value with
      | JsonVal.list xs =>
        if xs.all isStr then checkTopLevel subkey rest
        else Except.error (PyExc.configError "Expected string")
      | _ => Except.error (PyExc.configError "Expected list")
    else if key = "files" then
      match value with
      | JsonVal.obj entries =>
        match checkFiles subkey entries with
        | Except.error e => Except.error e
        | Except.ok subkey2 => checkTopLevel subkey2 rest
      | _ => Except.error (PyExc.configError "Expected dict")
    else if key = "read_only" then
      if isBool value then checkTopLevel subkey rest
      else Except.error (PyExc.configError "Expected bool")
    else if key = "relative_cwd" then
      if isStr value then checkTopLevel subkey rest
      else Except.error (PyExc.configError "Expected string")
    else
      match subkey with
      | none => Except.error (PyExc.unboundLocal "subkey")
      | some s => Except.error (PyExc.configError ("Unknown key " ++ s))

/-- `load_manifest` over an already-parsed JSON value (the `json.loads`
failure branch, line 179, is a `ConfigError` and is outside this embedding):
requires a dict at top level, validates every key, and returns the same
value on success (the function returns `data` unchanged). -/
def load_manifest (data : JsonVal) : Except PyExc JsonVal :=
  match data with
  | JsonVal.obj kvs =>
    match checkTopLevel none kvs with
    | Except.error e => Except.error e
    | Except.ok () => Except.ok data
  | _ => Except.error (PyExc.configError "Expected dict")

/-! ### Cache (lines 394-544)

The cache state is the LRU list `self.state` (oldest first), the blob files
physically present in `cache_dir` (name and size, as an association list in
`os.listdir` order, excluding `state.json`), the persisted `state.json`
contents, the profiling lists, and the free space of the underlying
filesystem (`get_free_space`; removing a blob of size `s` frees `s` bytes,
the single-writer assumption of §5 of the design). -/

/-- `CachePolicies` (lines 378-391): `0` disables each limit. -/
structure CachePolicies where
  max_cache_size : Nat
  min_free_space : Nat
  max_items : Nat
deriving Repr

/-- The mutable state of a `Cache` instance together with the on-disk
artifacts it owns. -/
structure Cache where
  /-- `self.state`: LRU list of content ids, oldest first. -/
  state : List String
  /-- Blob files present in `cache_dir` (excluding `state.json`), with their
  sizes, in `os.listdir` order. -/
  disk : List (String × Nat)
  /-- The contents of `state.json` (written by `self.save()`). -/
  persisted : List String
  /-- `self.files_added` profiling list. -/
  files_added : List (String × Nat)
  /-- `self.files_removed` profiling list. -/
  files_removed : List (String × Nat)
  /-- Free bytes reported by `get_free_space(self.cache_dir)`. -/
  free : Nat
deriving Repr

/-- `os.path.exists(self.path(f))` for a blob name. -/
def hasFile : List (String × Nat) → String → Bool
  | [], _ => false
  | e :: rest, f => e.1 = f || hasFile rest f

/-- `os.stat(self.path(f)).st_size`: size of the (unique) matching entry. -/
def sizeOn : List (String × Nat) → String → Option Nat
  | [], _ => none
  | e :: rest, f => if e.1 = f then some e.2 else sizeOn rest f

/-- `os.remove(self.path(f))`: delete the blob from the directory listing
(directory entries are unique, so this removes the one matching entry). -/
def removeFile : List (String × Nat) → String → List (String × Nat)
  | [], _ => []
  | e :: rest, f => if e.1 = f then removeFile rest f else e :: removeFile rest f

/-- `self.save()` (lines 542-544): dump `self.state` to `state.json`. -/
def Cache.save (c : Cache) : Cache :=
  { c with persisted := c.state }

/-- `Cache.remove_lru_file` (lines 458-468): pop the oldest id from
`self.state`; stat, record and delete its backing file, freeing its size.
A missing backing file raises `OSError` inside the `try`, which is caught
and logged, so the id is dropped from tracking either way and nothing else
happens.  An empty `self.state` cannot occur: every call site guards on it
(modelled as a no-op). -/
def Cache.remove_lru_file (c : Cache) : Cache :=
  match c.state with
  | [] => c
  | f :: rest =>
    match sizeOn c.disk f with
    | some sz =>
      { c with state := rest, disk := removeFile c.disk f,
               files_removed := c.files_removed ++ [(f, sz)],
               free := c.free + sz }
    | none => { c with state := rest }

/-- `trim` step 1 (lines 473-476): drop every state entry whose backing file
no longer exists.  (Python iterates a copy and removes by value, which for
each missing name removes as many occurrences as the copy holds, i.e. all of
them — a filter.) -/
def dropLostEntries (c : Cache) : Cache :=
  { c with state := c.state.filter (fun f => hasFile c.disk f) }

/-- `trim` step 2 (lines 478-484): every file in `os.listdir(cache_dir)`
that is not `state.json` and not already tracked is inserted at position 0
(the oldest slot), one at a time in listing order, each checked against the
state as updated so far. -/
def adoptUnknownFiles (c : Cache) : Cache :=
  { c with
    state := c.disk.foldl (fun st d => if d.1 ∈ st then st else d.1 :: st) c.state }

/-- The loop body of `trim` step 3, with explicit fuel.  Each iteration
requires a nonempty state and removes its head, so fuel equal to the LRU
length makes the fueled loop equal to the unbounded `while` loop (when the
fuel runs out the state is empty and the `while` condition is false
anyway). -/
def trimFreeLoopF : Nat → Nat → Cache → Cache
  | 0, _, c => c
  | fuel + 1, minFree, c =>
    if minFree ≠ 0 ∧ c.state ≠ [] ∧ c.free < minFree then
      trimFreeLoopF fuel minFree c.remove_lru_file
    else c

/-- `trim` step 3 (lines 487-491): evict oldest-first while `min_free_space`
is set, the state is nonempty, and free space is below `min_free_space`. -/
def trimFreeLoop (minFree : Nat) (c : Cache) : Cache :=
  trimFreeLoopF c.state.length minFree c

/-- `trim` step 4 inner loop (lines 502-504): with `sizes` the stat sizes of
the tracked files (computed once, in state order), evict oldest-first while
the list is nonempty and its sum exceeds `max_cache_size`, popping `sizes`
in lockstep. -/
def trimSizeLoop (maxSize : Nat) : List Nat → Cache → Cache
  | [], c => c
  | s :: rest, c =>
    if (s :: rest).sum > maxSize then trimSizeLoop maxSize rest c.remove_lru_file
    else c

/-- The loop body of `trim` step 5, with explicit fuel (see
`trimFreeLoopF`: fuel equal to the LRU length makes this the unbounded
`while` loop). -/
def trimCountLoopF : Nat → Nat → Cache → Cache
  | 0, _, c => c
  | fuel + 1, maxItems, c =>
    if c.state.length > maxItems then
      trimCountLoopF fuel maxItems c.remove_lru_file
    else c

/-- `trim` step 5 inner loop (lines 508-509): evict oldest-first while the
item count exceeds `max_items`. -/
def trimCountLoop (maxItems : Nat) (c : Cache) : Cache :=
  trimCountLoopF c.state.length maxItems c

/-- `os.stat` sizes of all tracked files (line 496); `none` models the
`OSError` raised and re-raised (lines 497-500) when a tracked file is
missing. -/
def sizesOf (disk : List (String × Nat)) : List String → Option (List Nat)
  | [] => some []
  | f :: rest =>
    match sizeOn disk f, sizesOf disk rest with
    | some s, some ss => some (s :: ss)
    | _, _ => none

/-- `trim` step 4 (lines 493-504): when `max_cache_size` is set and the
state nonempty, stat every tracked file (`Except.error ()` is the re-raised
`OSError` of lines 497-500 when one is missing) and evict oldest-first
while the total exceeds the limit. -/
def trimStep4 (maxSize : Nat) (c : Cache) : Except Unit Cache :=
  if maxSize ≠ 0 ∧ c.state ≠ [] then
    match sizesOf c.disk c.state with
    | none => Except.error ()
    | some sizes => Except.ok (trimSizeLoop maxSize sizes c)
  else Except.ok c

/-- `trim` step 5 (lines 506-509): when `max_items` is set and the state
nonempty, evict oldest-first while the item count exceeds the limit. -/
def trimStep5 (maxItems : Nat) (c : Cache) : Cache :=
  if maxItems ≠ 0 ∧ c.state ≠ [] then trimCountLoop maxItems c else c

/-- `Cache.trim` (lines 470-511): repair the state against the directory,
enforce the free-space, total-size and item-count policies oldest-first,
then persist (`self.save()`, line 511).  On the step-4 `OSError` the
exception propagates and nothing is persisted. -/
def Cache.trim (pol : CachePolicies) (c : Cache) : Except Unit Cache :=
  match trimStep4 pol.max_cache_size
      (trimFreeLoop pol.min_free_space (adoptUnknownFiles (dropLostEntries c))) with
  | Except.error e => Except.error e
  | Except.ok c4 => Except.ok (Cache.save (trimStep5 pol.max_items c4))

/-- What the fetch issued by a cache miss leaves at the destination path
`self.path(item)` once `get_result()` has returned: `some sz` when a file of
size `sz` was placed there, `none` when nothing was (e.g. the fetch failed
and `get_result` returned the exception tuple as a value, see
`get_result`). -/
def FetchEffect := Option Nat

/-- Result of `Cache.retrieve`: the returned boolean, the cache afterwards,
and how many fetches were issued through the `Remote` (0 or 1). -/
structure RetrieveResult where
  ret : Bool
  cache : Cache
  fetches : Nat
deriving Repr

/-- `Cache.retrieve` (lines 513-536).  The line-515 assertion that `item` holds no slash is
modelled as `Except.error ()` (an `AssertionError`).  On a hit the id moves
to the MRU end and `False` is returned with no fetch; on a miss one fetch is
issued, and if a file then exists at the destination the id is appended and
the addition recorded; either way `True` is returned.  The `finally` saves
the state. -/
def Cache.retrieve (c : Cache) (item : String) (eff : FetchEffect) :
    Except Unit RetrieveResult :=
  if '/' ∈ item.data then Except.error ()
  else if item ∈ c.state then
    Except.ok { ret := false,
                cache := Cache.save { c with state := c.state.erase item ++ [item] },
                fetches := 0 }
  else
    match eff with
    | some sz =>
      Except.ok { ret := true,
                  cache := Cache.save
                    { c with state := c.state ++ [item],
                             disk := c.disk ++ [(item, sz)],
                             files_added := c.files_added ++ [(item, sz)] },
                  fetches := 1 }
    | none =>
      Except.ok { ret := true, cache := Cache.save c, fetches := 1 }

/-- Retrieve a sequence of ids in order, each miss being served by a fetch
that places a file of size 1 (sizes are irrelevant when `max_cache_size` is
0).  An `AssertionError` aborts the run, as in Python. -/
def retrieveSeq (c : Cache) : List String → Except Unit Cache
  | [] => Except.ok c
  | id :: rest =>
    match c.retrieve id (some 1) with
    | Except.error e => Except.error e
    | Except.ok r => retrieveSeq r.cache rest

/-- A cache over an empty directory with empty persisted state, as built by
`Cache.__init__` on a fresh `cache_dir` (`free` is the initial free space of
the filesystem). -/
def emptyCache (free : Nat) : Cache :=
  { state := [], disk := [], persisted := [], files_added := [],
    files_removed := [], free := free }

/-! ### `run_tha_test` (lines 547-599): exit paths and temp-dir cleanup

`run_tha_test` creates `outdir` (line 552), then returns 1 early when the
manifest lacks `files` (lines 554-556) or `command` (lines 557-559) — both
returns sit BEFORE the `try:` of line 561 — and otherwise enters a
`try ... finally: rmtree(outdir)` block covering materialization (which can
raise `MappingError` via `link_file` or `ConfigError` on an entry with
neither `sha-1` nor `link`) and the child spawn (`subprocess.call`, whose
`OSError` is printed and re-raised).  The embedding abstracts the work done
inside the `try` into its observable outcome and records, per exit path,
the value delivered and whether `rmtree(outdir)` ran. -/

/-- What happens inside the `try` block of `run_tha_test` on a given run:
either materialization raises (`MappingError` from `link_file`,
`ConfigError` from an entry with neither `sha-1` nor `link`), or it
completes and the child either exits with a code or fails to spawn
(`OSError`). -/
inductive TryBlockOutcome where
  | mappingError
  | configError
  | childExited (code : Int)
  | spawnOSError
deriving DecidableEq, Repr

/-- What `run_tha_test` delivers to its caller: a return value, or a
propagated exception. -/
inductive RunDelivery where
  | returns (code : Int)
  | raisesMappingError
  | raisesConfigError
  | raisesOSError
deriving DecidableEq, Repr

/-- Observable outcome of one `run_tha_test` call: what was delivered and
whether the materialized temporary directory was removed before returning. -/
structure RunOutcome where
  delivery : RunDelivery
  outdirRemoved : Bool
deriving DecidableEq, Repr

/-- The exit-path structure of `run_tha_test` (lines 551-599) after `outdir`
has been created: the two early validation returns (lines 554-559) precede
the `try`/`finally`, so they deliver 1 without removing `outdir`; every
path through the `try` block reaches `finally: rmtree(outdir)`. -/
def run_tha_test (hasFilesKey hasCommandKey : Bool)
    (tryOutcome : TryBlockOutcome) : RunOutcome :=
  if !hasFilesKey then
    { delivery := RunDelivery.returns 1, outdirRemoved := false }
  else if !hasCommandKey then
    { delivery := RunDelivery.returns 1, outdirRemoved := false }
  else
    match tryOutcome with
    | TryBlockOutcome.mappingError =>
      { delivery := RunDelivery.raisesMappingError, outdirRemoved := true }
    | TryBlockOutcome.configError =>
      { delivery := RunDelivery.raisesConfigError, outdirRemoved := true }
    | TryBlockOutcome.childExited code =>
      { delivery := RunDelivery.returns code, outdirRemoved := true }
    | TryBlockOutcome.spawnOSError =>
      { delivery := RunDelivery.raisesOSError, outdirRemoved := true }

/-! ### `run_tha_test` manifest mutation (lines 587-590)

Line 587 binds `cmd` to the `command` list of the manifest itself — a
reference, not a copy — and line 589 assigns into `cmd[0]` the result of
replacing each slash with `os.path.sep`, mutating the loaded manifest
in place.  (`fix_python_path`, line 590, copies the list first, so it does
not mutate.)  This is the only statement in `run_tha_test` that writes to
`manifest`. -/

/-- Python string replace of the slash by `sep`, for a single-character pattern and a
single-character replacement: replace every occurrence character-wise. -/
def pyReplaceSlash (sep : Char) (s : String) : String :=
  ⟨s.data.map (fun ch => if ch = '/' then sep else ch)⟩

/-- The effect of line 589 on the `command` value of the manifest: the first
element of the list has `'/'` replaced by `os.path.sep`.  An empty or
non-list `command` would raise before assigning (`cmd[0]` on the right-hand
side), which validated manifests with a nonempty command never hit; those
shapes are left untouched here and excluded by hypothesis in the theorems. -/
def rewriteCommandHead (sep : Char) : JsonVal → JsonVal
  | JsonVal.list (JsonVal.str c0 :: rest) =>
      JsonVal.list (JsonVal.str (pyReplaceSlash sep c0) :: rest)
  | v => v

/-- The loaded manifest dict as it stands after `run_tha_test` ran to the
spawn point with path separator `sep`: the value under `command` is
rewritten in place by line 589; every other entry is untouched. -/
def manifestAfterRun (sep : Char) : JsonVal → JsonVal
  | JsonVal.obj kvs =>
      JsonVal.obj (kvs.map (fun kv =>
        if kv.1 = "command" then (kv.1, rewriteCommandHead sep kv.2) else kv))
  | v => v

/-- Dict lookup on the association-list embedding of a JSON object. -/
def lookupKey : List (String × JsonVal) → String → Option JsonVal
  | [], _ => none
  | kv :: rest, k => if kv.1 = k then some kv.2 else lookupKey rest k

/-- Total size of the blobs still tracked in the state (a missing backing
file contributes 0). -/
def trackedSize (c : Cache) : Nat :=
  (c.state.map (fun f => (sizeOn c.disk f).getD 0)).sum

/-- A cache already tracking content id `a` (backed by a 1-byte blob), used
as concrete input below. -/
def trackedA : Cache :=
  { state := ["a"], disk := [("a", 1)], persisted := ["a"], files_added := [],
    files_removed := [], free := 0 }

/-- A cache tracking two 5-byte blobs (total 10), used as concrete input
below with `max_cache_size = 6`. -/
def twoBlobCache : Cache :=
  { state := ["a", "b"], disk := [("a", 5), ("b", 5)], persisted := ["a", "b"],
    files_added := [], files_removed := [], free := 0 }

/-- The result of trimming `twoBlobCache` under
`CachePolicies.mk 6 0 0`: the oldest blob `a` is evicted. -/
def twoBlobTrimmed : Cache :=
  { state := ["b"], disk := [("b", 5)], persisted := ["b"],
    files_added := [], files_removed := [("a", 5)], free := 5 }

/-! ## Helper lemmas on `remove_lru_file`, the trim loops and `trackedSize` -/

/-- `remove_lru_file` always drops exactly the head of the LRU list. -/
theorem remove_lru_file_state (c : Cache) :
    (Cache.remove_lru_file c).state = c.state.tail := by
  rcases hc : c.state with _ | ⟨f, rest⟩
  · simp [Cache.remove_lru_file, hc]
  · rcases hz : sizeOn c.disk f with _ | sz <;>
      simp [Cache.remove_lru_file, hc, hz]

/-- Deleting file `f` does not change the stat result of a different name
`g` (`find?` skips non-matching entries either way). -/
theorem sizeOn_removeFile_ne (d : List (String × Nat)) (f g : String)
    (h : g ≠ f) : sizeOn (removeFile d f) g = sizeOn d g := by
  have hfg : ¬ (f = g) := fun hfg => h hfg.symm
  induction d with
  | nil => rfl
  | cons e rest ih =>
    by_cases hef : e.1 = f
    · have heg : ¬ (e.1 = g) := fun hg => h (hg ▸ hef)
      simp [removeFile, sizeOn, hef, heg, h, hfg, ih]
    · by_cases heg : e.1 = g <;> simp [removeFile, sizeOn, hef, heg, h, hfg, ih]

/-- After deleting file `f`, stat of `f` fails. -/
theorem sizeOn_removeFile_self (d : List (String × Nat)) (f : String) :
    sizeOn (removeFile d f) f = none := by
  induction d with
  | nil => rfl
  | cons e rest ih =>
    by_cases hef : e.1 = f <;> simp [removeFile, sizeOn, hef, ih]

/-- Deleting a file never increases the accounted size of any name. -/
theorem getD_sizeOn_removeFile_le (d : List (String × Nat)) (f g : String) :
    (sizeOn (removeFile d f) g).getD 0 ≤ (sizeOn d g).getD 0 := by
  by_cases h : g = f
  · rw [h, sizeOn_removeFile_self]
    exact Nat.zero_le _
  · rw [sizeOn_removeFile_ne d f g h]

/-- Evicting the oldest entry never increases the total tracked size. -/
theorem trackedSize_remove_le (c : Cache) :
    trackedSize (Cache.remove_lru_file c) ≤ trackedSize c := by
  rcases hc : c.state with _ | ⟨f, rest⟩
  · simp [Cache.remove_lru_file, hc]
  · rcases hz : sizeOn c.disk f with _ | sz
    · simp [Cache.remove_lru_file, hc, hz, trackedSize]
    · simp only [Cache.remove_lru_file, hc, hz, trackedSize, List.map_cons,
        List.sum_cons]
      have hle : (rest.map (fun g => (sizeOn (removeFile c.disk f) g).getD 0)).sum
          ≤ (rest.map (fun g => (sizeOn c.disk g).getD 0)).sum := by
        apply List.sum_le_sum
        intro g _
        exact getD_sizeOn_removeFile_le c.disk f g
      exact le_trans hle (Nat.le_add_left _ _)

/-- With enough fuel, the item-count loop drops entries from the front
until at most `maxItems` remain. -/
theorem trimCountLoopF_state (K : Nat) :
    ∀ (fuel : Nat) (c : Cache), c.state.length ≤ fuel →
      (trimCountLoopF fuel K c).state = c.state.drop (c.state.length - K) := by
  intro fuel
  induction fuel with
  | zero =>
    intro c hfuel
    have hnil : c.state = [] := List.length_eq_zero.mp (Nat.le_zero.mp hfuel)
    rw [trimCountLoopF, hnil]
    simp
  | succ fuel ih =>
    intro c hfuel
    rw [trimCountLoopF]
    by_cases h : c.state.length > K
    · rw [if_pos h]
      rcases hs : c.state with _ | ⟨f, rest⟩
      · rw [hs] at h; simp at h
      · have hlen2 : (Cache.remove_lru_file c).state.length ≤ fuel := by
          rw [remove_lru_file_state, hs]
          rw [hs] at hfuel
          simp at hfuel ⊢
          omega
        rw [ih (Cache.remove_lru_file c) hlen2, remove_lru_file_state, hs]
        rw [hs] at h
        simp only [List.length_cons] at h
        have hlen : rest.length + 1 - K = (rest.length - K) + 1 := by omega
        simp [hlen]
    · rw [if_neg h]
      have hlen : c.state.length - K = 0 := by omega
      simp [hlen]

/-- The item-count loop drops entries from the front until at most
`maxItems` remain. -/
theorem trimCountLoop_state (K : Nat) (c : Cache) :
    (trimCountLoop K c).state = c.state.drop (c.state.length - K) :=
  trimCountLoopF_state K c.state.length c (Nat.le_refl _)

/-- The item-count loop never increases the tracked size. -/
theorem trimCountLoopF_tracked_le (K : Nat) :
    ∀ (fuel : Nat) (c : Cache),
      trackedSize (trimCountLoopF fuel K c) ≤ trackedSize c := by
  intro fuel
  induction fuel with
  | zero => intro c; rw [trimCountLoopF]
  | succ fuel ih =>
    intro c
    rw [trimCountLoopF]
    by_cases h : c.state.length > K
    · rw [if_pos h]
      exact le_trans (ih (Cache.remove_lru_file c)) (trackedSize_remove_le c)
    · rw [if_neg h]

/-- The item-count loop never increases the tracked size. -/
theorem trimCountLoop_tracked_le (K : Nat) (c : Cache) :
    trackedSize (trimCountLoop K c) ≤ trackedSize c :=
  trimCountLoopF_tracked_le K c.state.length c

/-- With `min_free_space = 0` (the disabled policy) the free-space loop is
a no-op. -/
theorem trimFreeLoop_zero (c : Cache) : trimFreeLoop 0 c = c := by
  unfold trimFreeLoop
  cases c.state.length with
  | zero => rw [trimFreeLoopF]
  | succ n => rw [trimFreeLoopF]; simp

/-- The free-space loop only drops entries from the front of the LRU
list. -/
theorem trimFreeLoopF_state_drop (minFree : Nat) :
    ∀ (fuel : Nat) (c : Cache),
      ∃ k, (trimFreeLoopF fuel minFree c).state = c.state.drop k := by
  intro fuel
  induction fuel with
  | zero => exact fun c => ⟨0, rfl⟩
  | succ fuel ih =>
    intro c
    rw [trimFreeLoopF]
    by_cases h : minFree ≠ 0 ∧ c.state ≠ [] ∧ c.free < minFree
    · rw [if_pos h]
      obtain ⟨k, hk⟩ := ih (Cache.remove_lru_file c)
      refine ⟨k + 1, ?_⟩
      rw [hk, remove_lru_file_state]
      exact List.drop_tail _ _
    · rw [if_neg h]
      exact ⟨0, rfl⟩

/-- The free-space loop only drops entries from the front of the LRU
list. -/
theorem trimFreeLoop_state_drop (minFree : Nat) (c : Cache) :
    ∃ k, (trimFreeLoop minFree c).state = c.state.drop k :=
  trimFreeLoopF_state_drop minFree c.state.length c

/-- The size loop only drops entries from the front of the LRU list. -/
theorem trimSizeLoop_state_drop (maxSize : Nat) :
    ∀ (sizes : List Nat) (c : Cache),
      ∃ k, (trimSizeLoop maxSize sizes c).state = c.state.drop k := by
  intro sizes
  induction sizes with
  | nil => exact fun c => ⟨0, rfl⟩
  | cons s rest ih =>
    intro c
    by_cases h : (s :: rest).sum > maxSize
    · rw [trimSizeLoop, if_pos h]
      obtain ⟨k, hk⟩ := ih (Cache.remove_lru_file c)
      refine ⟨k + 1, ?_⟩
      rw [hk, remove_lru_file_state]
      exact List.drop_tail _ _
    · rw [trimSizeLoop, if_neg h]
      exact ⟨0, rfl⟩

/-- A `Forall₂` bound between tracked names and a size list bounds the
tracked total by the size total. -/
theorem tracked_le_sum_of_forall₂ (d : List (String × Nat)) :
    ∀ (st : List String) (sizes : List Nat),
      List.Forall₂ (fun f s => (sizeOn d f).getD 0 ≤ s) st sizes →
      (st.map (fun f => (sizeOn d f).getD 0)).sum ≤ sizes.sum := by
  intro st sizes h
  induction h with
  | nil => simp
  | cons hfs _ ih =>
    simp only [List.map_cons, List.sum_cons]
    exact Nat.add_le_add hfs ih

/-- The stat pass of lines 495-500 returns sizes bounding (here: equalling)
the accounted size of each tracked name, in order. -/
theorem sizesOf_forall₂ (d : List (String × Nat)) :
    ∀ (st : List String) (sizes : List Nat), sizesOf d st = some sizes →
      List.Forall₂ (fun f s => (sizeOn d f).getD 0 ≤ s) st sizes := by
  intro st
  induction st with
  | nil =>
    intro sizes h
    simp [sizesOf] at h
    subst h
    exact List.Forall₂.nil
  | cons f rest ih =>
    intro sizes h
    rcases hz : sizeOn d f with _ | s
    · rw [sizesOf, hz] at h
      simp at h
    · rcases hrest : sizesOf d rest with _ | ss
      · rw [sizesOf, hz, hrest] at h
        simp at h
      · rw [sizesOf, hz, hrest] at h
        simp only [Option.some.injEq] at h
        rw [← h]
        exact List.Forall₂.cons (by rw [hz]; exact Nat.le_refl s) (ih ss hrest)

/-- The size loop of lines 502-504 leaves a tracked total at most
`maxSize`, provided the size list pointwise bounds the tracked names (as
the stat pass guarantees). -/
theorem trimSizeLoop_tracked_le (maxSize : Nat) :
    ∀ (sizes : List Nat) (c : Cache),
      List.Forall₂ (fun f s => (sizeOn c.disk f).getD 0 ≤ s) c.state sizes →
      trackedSize (trimSizeLoop maxSize sizes c) ≤ maxSize := by
  intro sizes
  induction sizes with
  | nil =>
    intro c h
    rw [trimSizeLoop]
    rcases hc : c.state with _ | ⟨f, st⟩
    · unfold trackedSize
      rw [hc]
      simp
    · rw [hc] at h
      cases h
  | cons s rest ih =>
    intro c h
    by_cases hsum : (s :: rest).sum > maxSize
    · rw [trimSizeLoop, if_pos hsum]
      apply ih
      rcases hc : c.state with _ | ⟨f, st⟩
      · rw [hc] at h; cases h
      · rw [hc] at h
        cases h with
        | cons hfs hrest =>
          rw [remove_lru_file_state, hc]
          simp only [List.tail_cons]
          have hdisk : ∀ g s2, (sizeOn c.disk g).getD 0 ≤ s2 →
              (sizeOn (Cache.remove_lru_file c).disk g).getD 0 ≤ s2 := by
            intro g s2 hg
            rcases hz : sizeOn c.disk f with _ | sz
            · have : (Cache.remove_lru_file c).disk = c.disk := by
                simp [Cache.remove_lru_file, hc, hz]
              rw [this]
              exact hg
            · have : (Cache.remove_lru_file c).disk = removeFile c.disk f := by
                simp [Cache.remove_lru_file, hc, hz]
              rw [this]
              exact le_trans (getD_sizeOn_removeFile_le c.disk f g) hg
          exact List.Forall₂.imp (fun a b hab => hdisk a b hab) hrest
    · rw [trimSizeLoop, if_neg hsum]
      calc trackedSize c ≤ (s :: rest).sum :=
            tracked_le_sum_of_forall₂ c.disk c.state (s :: rest) h
        _ ≤ maxSize := by omega

/-! ## Branch behaviour of `Cache.retrieve` (helper lemmas) -/

/-- Hit branch of `Cache.retrieve` (lines 517-521): id already tracked —
move it to the MRU end, no fetch, return `False`. -/
theorem retrieve_hit (c : Cache) (item : String) (eff : FetchEffect)
    (hslash : '/' ∉ item.data) (hmem : item ∈ c.state) :
    Cache.retrieve c item eff = Except.ok
      { ret := false,
        cache := Cache.save { c with state := c.state.erase item ++ [item] },
        fetches := 0 } := by
  simp [Cache.retrieve, hslash, hmem]

/-- Miss branch of `Cache.retrieve` with the fetched file placed (lines
522-534, `os.path.exists(out)` true): one fetch, id appended, `True`
returned. -/
theorem retrieve_miss_placed (c : Cache) (item : String) (sz : Nat)
    (hslash : '/' ∉ item.data) (hmem : item ∉ c.state) :
    Cache.retrieve c item (some sz) = Except.ok
      { ret := true,
        cache := Cache.save
          { c with state := c.state ++ [item], disk := c.disk ++ [(item, sz)],
                   files_added := c.files_added ++ [(item, sz)] },
        fetches := 1 } := by
  simp [Cache.retrieve, hslash, hmem]

/-- Miss branch of `Cache.retrieve` with no file at the destination (lines
522-534, `os.path.exists(out)` false): one fetch, nothing appended, `True`
returned. -/
theorem retrieve_miss_missing (c : Cache) (item : String)
    (hslash : '/' ∉ item.data) (hmem : item ∉ c.state) :
    Cache.retrieve c item none
      = Except.ok { ret := true, cache := Cache.save c, fetches := 1 } := by
  simp [Cache.retrieve, hslash, hmem]

/-! ## Sequential retrieval and trim on a fresh cache (helper lemmas) -/

/-- Retrieving a sequence of fresh, distinct, slash-free ids (each fetch
placing a 1-byte blob) succeeds and appends the ids to the LRU list and to
the cache directory, in order. -/
theorem retrieveSeq_fresh :
    ∀ (ids : List String) (c : Cache),
      (∀ id ∈ ids, '/' ∉ id.data) → (∀ id ∈ ids, id ∉ c.state) → ids.Nodup →
      ∃ c2, retrieveSeq c ids = Except.ok c2 ∧
        c2.state = c.state ++ ids ∧
        c2.disk = c.disk ++ ids.map (fun id => (id, 1)) := by
  intro ids
  induction ids with
  | nil =>
    intro c _ _ _
    exact ⟨c, rfl, by simp, by simp⟩
  | cons id rest ih =>
    intro c hslash hmem hnodup
    have hnd := List.nodup_cons.mp hnodup
    have h1 := retrieve_miss_placed c id 1 (hslash id (List.mem_cons_self id rest))
      (hmem id (List.mem_cons_self id rest))
    obtain ⟨c2, hseq, hst, hdk⟩ := ih
      (Cache.save { c with state := c.state ++ [id], disk := c.disk ++ [(id, 1)],
                           files_added := c.files_added ++ [(id, 1)] })
      (fun i hi => hslash i (List.mem_cons_of_mem id hi))
      (by
        intro i hi
        simp only [Cache.save, List.mem_append, List.mem_singleton]
        push_neg
        exact ⟨hmem i (List.mem_cons_of_mem id hi),
               fun hie => hnd.1 (hie ▸ hi)⟩)
      hnd.2
    refine ⟨c2, ?_, ?_, ?_⟩
    · rw [retrieveSeq, h1]
      exact hseq
    · rw [hst]
      simp [Cache.save]
    · rw [hdk]
      simp [Cache.save]

/-- Every id retrieved into the directory listing is reported present by
`os.path.exists`. -/
theorem hasFile_map_one (ids : List String) (f : String) (hf : f ∈ ids) :
    hasFile (ids.map (fun i => (i, 1))) f = true := by
  induction ids with
  | nil => cases hf
  | cons i rest ih =>
    rcases List.mem_cons.mp hf with h | h
    · simp [hasFile, h]
    · simp [hasFile, ih h]

/-- The adoption fold of `trim` step 2 is the identity when every directory
entry is already tracked. -/
theorem adopt_foldl_id :
    ∀ (l : List (String × Nat)) (st : List String), (∀ d ∈ l, d.1 ∈ st) →
      l.foldl (fun st d => if d.1 ∈ st then st else d.1 :: st) st = st := by
  intro l
  induction l with
  | nil => intro st _; rfl
  | cons d rest ih =>
    intro st h
    have hd : d.1 ∈ st := h d (List.mem_cons_self d rest)
    simp only [List.foldl_cons, if_pos hd]
    exact ih st (fun e he => h e (List.mem_cons_of_mem d he))

/-- When `max_cache_size` is set and step 4 completes without the
`OSError`, the resulting tracked total is at most the limit, and only
oldest-first evictions happened. -/
theorem trimStep4_tracked (maxSize : Nat) (c c4 : Cache) (hmax : maxSize ≠ 0)
    (h : trimStep4 maxSize c = Except.ok c4) :
    trackedSize c4 ≤ maxSize ∧ ∃ k, c4.state = c.state.drop k := by
  unfold trimStep4 at h
  by_cases hne : c.state = []
  · rw [if_neg (by simp [hne])] at h
    have hc4 : c = c4 := Except.ok.inj h
    subst hc4
    constructor
    · unfold trackedSize
      rw [hne]
      simp
    · exact ⟨0, rfl⟩
  · rw [if_pos ⟨hmax, hne⟩] at h
    rcases hsz : sizesOf c.disk c.state with _ | sizes <;> rw [hsz] at h
    · cases h
    · have hc4 : trimSizeLoop maxSize sizes c = c4 := Except.ok.inj h
      subst hc4
      exact ⟨trimSizeLoop_tracked_le maxSize sizes c
               (sizesOf_forall₂ c.disk c.state sizes hsz),
             trimSizeLoop_state_drop maxSize sizes c⟩

/-- Step 5 never increases the tracked total. -/
theorem trimStep5_tracked_le (maxItems : Nat) (c : Cache) :
    trackedSize (trimStep5 maxItems c) ≤ trackedSize c := by
  unfold trimStep5
  by_cases h : maxItems ≠ 0 ∧ c.state ≠ []
  · rw [if_pos h]
    exact trimCountLoop_tracked_le maxItems c
  · rw [if_neg h]

/-- Step 5 only drops entries from the front of the LRU list. -/
theorem trimStep5_state_drop (maxItems : Nat) (c : Cache) :
    ∃ k, (trimStep5 maxItems c).state = c.state.drop k := by
  unfold trimStep5
  by_cases h : maxItems ≠ 0 ∧ c.state ≠ []
  · rw [if_pos h]
    exact ⟨c.state.length - maxItems, trimCountLoop_state maxItems c⟩
  · rw [if_neg h]
    exact ⟨0, rfl⟩

/-! ## Claims -/

/-- C1: the spec says that when a backing-store fetch ultimately fails, the
next `Remote.get_result()` call delivering that item re-raises the original
exception instead of returning a value.  The code pushes the failure entry
with the integer priority `-1` (lines 351/354) but `get_result` compares
`r[0]` against the string "-1" (line 308); in Python 2 an `int` never
equals a `str`, so the comparison is `False` and `get_result` RETURNS the
`exc_info` triple as though it were a fetched object, for every captured
exception.  This theorem evaluates the code path at the pushed failure
entry. -/
theorem C1_get_result_returns_instead_of_raising (e : ExcInfo) :
    get_result (failureDoneEntry e) = GetResultOutcome.returned (DonePayload.excInfo e) := by
  rfl

/-- C2 counterexample: the claim says `retrieve` returns `true` on a cache
hit; on the concrete cache already tracking `"a"`, `retrieve "a"` is a hit
(no fetch) yet returns `false`. -/
theorem C2_counterexample :
    "a" ∈ trackedA.state ∧
    Cache.retrieve trackedA "a" (some 1)
      = Except.ok { ret := false, cache := Cache.save trackedA, fetches := 0 } := by
  exact ⟨by decide, by rfl⟩

/-- C2 amended: `Cache.retrieve` returns FALSE on a cache hit (the id is
moved to the MRU end, no fetch is issued) and TRUE on a miss (exactly one
synchronous fetch is issued) — the opposite polarity of the claim. -/
theorem C2_retrieve_false_on_hit_true_on_miss (c : Cache) (item : String)
    (eff : FetchEffect) (hslash : '/' ∉ item.data) :
    (item ∈ c.state →
      ∃ r, Cache.retrieve c item eff = Except.ok r ∧ r.ret = false ∧
        r.fetches = 0 ∧ r.cache.state = c.state.erase item ++ [item]) ∧
    (item ∉ c.state →
      ∃ r, Cache.retrieve c item eff = Except.ok r ∧ r.ret = true ∧ r.fetches = 1) := by
  constructor
  · intro hmem
    exact ⟨_, retrieve_hit c item eff hslash hmem, rfl, rfl, rfl⟩
  · intro hmem
    cases eff with
    | some sz =>
      exact ⟨_, retrieve_miss_placed c item sz hslash hmem, rfl, rfl⟩
    | none =>
      exact ⟨_, retrieve_miss_missing c item hslash hmem, rfl, rfl⟩

/-- C2 witness: the amended theorem applied to the cache `trackedA` and the
id `"a"` it already tracks. -/
theorem C2_witness :
    ('/' ∉ "a".data) ∧
    ((("a" : String) ∈ trackedA.state →
      ∃ r, Cache.retrieve trackedA "a" (some 1) = Except.ok r ∧ r.ret = false ∧
        r.fetches = 0 ∧ r.cache.state = trackedA.state.erase "a" ++ ["a"]) ∧
    (("a" : String) ∉ trackedA.state →
      ∃ r, Cache.retrieve trackedA "a" (some 1) = Except.ok r ∧ r.ret = true ∧ r.fetches = 1)) :=
  ⟨by decide, C2_retrieve_false_on_hit_true_on_miss trackedA "a" (some 1) (by decide)⟩

/-- C3: the claim says every structural violation raises `ConfigError` and
no other exception type.  On the input object with the single unknown
top-level key `foo`, line 228 formats its message with the Python local
`subkey`, which has never been assigned (no `files` entry was iterated), so
the code raises `UnboundLocalError`, not `ConfigError`. -/
theorem C3_unknown_key_raises_unbound_local :
    load_manifest (JsonVal.obj [("foo", JsonVal.int 1)])
      = Except.error (PyExc.unboundLocal "subkey") := by
  rfl

/-- C4: an enqueued fetch whose backing fetch raises `IOError` on every
attempt is attempted exactly 6 times (the initial attempt plus 5 retries,
each re-enqueued with the retry counter in the low priority bits
incremented, demoting it to `p+1 ... p+5`), after which the exception entry
`(-1, 0, exc_info)` is pushed to the completion queue and the item is never
re-enqueued again.  The hypothesis is the `fetch_item` assertion that a
caller-supplied priority has zero retry bits. -/
theorem C4_always_ioerror_six_attempts (e : ExcInfo) (p : Nat) (hp : p % 256 = 0) :
    (retryAlwaysIOError e p).attempts = 6 ∧
    (retryAlwaysIOError e p).finalPriority = p + 5 ∧
    (retryAlwaysIOError e p).pushed = failureDoneEntry e := by
  have h1 : (p + 1) % 256 = 1 := by omega
  have h2 : (p + 1 + 1) % 256 = 2 := by omega
  have h3 : (p + 1 + 1 + 1) % 256 = 3 := by omega
  have h4 : (p + 1 + 1 + 1 + 1) % 256 = 4 := by omega
  have h5 : (p + 1 + 1 + 1 + 1 + 1) % 256 = 5 := by omega
  refine ⟨?_, ?_, ?_⟩ <;>
    · rw [retryAlwaysIOError, retryAlwaysIOError, retryAlwaysIOError,
        retryAlwaysIOError, retryAlwaysIOError, retryAlwaysIOError]
      simp [hp, h1, h2, h3, h4, h5]

/-- C4 witness: the theorem at the `MED` priority class (`2<<8`) with a
concrete `IOError` exc_info. -/
theorem C4_witness :
    MED % 256 = 0 ∧
    ((retryAlwaysIOError ⟨"IOError", "fetch failed", "tb"⟩ MED).attempts = 6 ∧
     (retryAlwaysIOError ⟨"IOError", "fetch failed", "tb"⟩ MED).finalPriority = MED + 5 ∧
     (retryAlwaysIOError ⟨"IOError", "fetch failed", "tb"⟩ MED).pushed
       = failureDoneEntry ⟨"IOError", "fetch failed", "tb"⟩) :=
  ⟨by decide, C4_always_ioerror_six_attempts ⟨"IOError", "fetch failed", "tb"⟩ MED (by decide)⟩

/-- C5 counterexample: the claim says the temporary output directory is
removed on the early validation failure for a manifest missing its `files`
key; on that path (line 554, reached after `outdir` was created at line
552 but before the `try` of line 561) the function returns 1 and `outdir`
is not removed. -/
theorem C5_counterexample :
    run_tha_test false true (TryBlockOutcome.childExited 0)
      = { delivery := RunDelivery.returns 1, outdirRemoved := false } := by
  rfl

/-- C5 amended: on every exit path of `run_tha_test` that enters the
materialization `try` block — child success, child failure, spawn error, a
fatal mapping or config error — the temporary directory is removed before
the function returns; the two early validation failures (manifest missing
`files` or `command`) return 1 WITHOUT removing the already-created
temporary directory, because those returns precede the `try`/`finally`. -/
theorem C5_cleanup_paths (tryOutcome : TryBlockOutcome) :
    (run_tha_test true true tryOutcome).outdirRemoved = true ∧
    (∀ hasCommandKey, run_tha_test false hasCommandKey tryOutcome
      = { delivery := RunDelivery.returns 1, outdirRemoved := false }) ∧
    run_tha_test true false tryOutcome
      = { delivery := RunDelivery.returns 1, outdirRemoved := false } := by
  refine ⟨?_, ?_, rfl⟩
  · cases tryOutcome <;> rfl
  · intro hc; rfl

/-- Replacing `'/'` by `'/'` (the POSIX `os.path.sep`) is the identity. -/
theorem pyReplaceSlash_id (s : String) : pyReplaceSlash '/' s = s := by
  have h : s.data.map (fun ch => if ch = '/' then '/' else ch) = s.data := by
    induction s.data with
    | nil => rfl
    | cons c cs ih => by_cases hc : c = '/' <;> simp [hc, ih]
  unfold pyReplaceSlash
  rw [h]

/-- Line 589 with the POSIX separator leaves the `command` value unchanged. -/
theorem rewriteCommandHead_id (v : JsonVal) : rewriteCommandHead '/' v = v := by
  cases v with
  | list xs =>
    cases xs with
    | nil => rfl
    | cons hd tl =>
      cases hd <;> simp [rewriteCommandHead, pyReplaceSlash_id]
  | str s => rfl
  | int n => rfl
  | bool b => rfl
  | null => rfl
  | obj kvs => rfl

/-- Looking up a key other than `command` is unaffected by the line-589
rewrite. -/
theorem lookupKey_map_other (kvs : List (String × JsonVal)) (sep : Char)
    (k : String) (hk : k ≠ "command") :
    lookupKey (kvs.map (fun kv =>
        if kv.1 = "command" then (kv.1, rewriteCommandHead sep kv.2) else kv)) k
      = lookupKey kvs k := by
  have hk2 : ¬ ("command" = k) := fun h => hk h.symm
  induction kvs with
  | nil => rfl
  | cons kv rest ih =>
    by_cases hcmd : kv.1 = "command"
    · have hne : ¬ (kv.1 = k) := fun h => hk (h ▸ hcmd)
      simp [lookupKey, hcmd, hne, hk2, ih]
    · by_cases hkk : kv.1 = k <;> simp [lookupKey, hcmd, hkk, hk, hk2, ih]

/-- Looking up `command` after the line-589 rewrite yields the rewritten
value. -/
theorem lookupKey_map_command (kvs : List (String × JsonVal)) (sep : Char) :
    lookupKey (kvs.map (fun kv =>
        if kv.1 = "command" then (kv.1, rewriteCommandHead sep kv.2) else kv)) "command"
      = (lookupKey kvs "command").map (rewriteCommandHead sep) := by
  induction kvs with
  | nil => rfl
  | cons kv rest ih =>
    by_cases hcmd : kv.1 = "command"
    · simp [lookupKey, hcmd]
    · simp [lookupKey, hcmd, ih]

/-- With the POSIX separator the whole rewritten entry list is unchanged. -/
theorem rewriteEntries_id (kvs : List (String × JsonVal)) :
    kvs.map (fun kv =>
        if kv.1 = "command" then (kv.1, rewriteCommandHead '/' kv.2) else kv)
      = kvs := by
  induction kvs with
  | nil => rfl
  | cons kv rest ih =>
    by_cases hcmd : kv.1 = "command" <;>
      simp [hcmd, rewriteCommandHead_id, ih]

/-- C6 counterexample: the claim says every field of the manifest, including
the command list elements, is unchanged after `run_tha_test`.  With the
Windows path separator and the loaded command `["a/b"]`, line 589 rewrites
the command list of the manifest itself, in place, to `["a\x5cb"]`, a different
value. -/
theorem C6_counterexample :
    manifestAfterRun '\\' (JsonVal.obj [("command", JsonVal.list [JsonVal.str "a/b"])])
      = JsonVal.obj [("command", JsonVal.list [JsonVal.str "a\\b"])] ∧
    ("a\\b" : String) ≠ "a/b" := by
  exact ⟨rfl, by decide⟩

/-- C6 amended: `run_tha_test` mutates the loaded manifest in exactly one
place — line 589 replaces every `'/'` in `command[0]` with `os.path.sep`,
in the list held by the manifest itself.  Every entry under a key other than `command`
is unchanged, the `command` tail is unchanged, and on platforms where
`os.path.sep` is `'/'` the rewrite happens to preserve the value, so the
manifest is value-unchanged there. -/
theorem C6_only_command_head_mutated (sep : Char) (kvs : List (String × JsonVal))
    (c0 : String) (rest : List JsonVal)
    (hcmd : lookupKey kvs "command" = some (JsonVal.list (JsonVal.str c0 :: rest))) :
    ∃ kvs2, manifestAfterRun sep (JsonVal.obj kvs) = JsonVal.obj kvs2 ∧
      lookupKey kvs2 "command"
        = some (JsonVal.list (JsonVal.str (pyReplaceSlash sep c0) :: rest)) ∧
      (∀ k, k ≠ "command" → lookupKey kvs2 k = lookupKey kvs k) ∧
      (sep = '/' → kvs2 = kvs) := by
  refine ⟨_, rfl, ?_, ?_, ?_⟩
  · rw [lookupKey_map_command, hcmd]
    rfl
  · intro k hk
    exact lookupKey_map_other kvs sep k hk
  · intro hsep
    rw [hsep]
    exact rewriteEntries_id kvs

/-- C6 witness: the amended theorem at a concrete two-entry manifest with
command `["a/b"]` and the Windows separator. -/
theorem C6_witness :
    lookupKey [("command", JsonVal.list [JsonVal.str "a/b"]),
               ("read_only", JsonVal.bool false)] "command"
      = some (JsonVal.list [JsonVal.str "a/b"]) ∧
    (∃ kvs2,
      manifestAfterRun '\\' (JsonVal.obj [("command", JsonVal.list [JsonVal.str "a/b"]),
                                          ("read_only", JsonVal.bool false)])
        = JsonVal.obj kvs2 ∧
      lookupKey kvs2 "command"
        = some (JsonVal.list [JsonVal.str (pyReplaceSlash '\\' "a/b")]) ∧
      (∀ k, k ≠ "command" →
        lookupKey kvs2 k
          = lookupKey [("command", JsonVal.list [JsonVal.str "a/b"]),
                       ("read_only", JsonVal.bool false)] k) ∧
      ('\\' = '/' →
        kvs2 = [("command", JsonVal.list [JsonVal.str "a/b"]),
                ("read_only", JsonVal.bool false)])) :=
  ⟨rfl, C6_only_command_head_mutated '\\'
    [("command", JsonVal.list [JsonVal.str "a/b"]), ("read_only", JsonVal.bool false)]
    "a/b" [] rfl⟩

/-- C9: for a content id whose first retrieval succeeds in placing the file
in the cache, two consecutive `retrieve` calls perform exactly one fetch
through the `Remote`: the first is a miss that fetches once and appends the
id; the second finds the id tracked and issues no fetch. -/
theorem C9_retrieve_idempotent_fetch_count (c : Cache) (item : String) (sz : Nat)
    (eff2 : FetchEffect) (hslash : '/' ∉ item.data) (hmem : item ∉ c.state) :
    ∃ r1 r2, Cache.retrieve c item (some sz) = Except.ok r1 ∧
      Cache.retrieve r1.cache item eff2 = Except.ok r2 ∧
      r1.fetches = 1 ∧ r2.fetches = 0 ∧ r1.fetches + r2.fetches = 1 ∧
      r2.ret = false := by
  have h1 := retrieve_miss_placed c item sz hslash hmem
  set c1 : Cache := Cache.save
    { c with state := c.state ++ [item], disk := c.disk ++ [(item, sz)],
             files_added := c.files_added ++ [(item, sz)] } with hc1
  have hmem2 : item ∈ c1.state := by
    rw [hc1]
    exact List.mem_append_right _ (List.mem_singleton_self item)
  have h2 := retrieve_hit c1 item eff2 hslash hmem2
  exact ⟨_, _, h1, h2, rfl, rfl, rfl, rfl⟩

/-- C9 witness: the theorem at the empty cache with id `"a"`. -/
theorem C9_witness :
    ('/' ∉ "a".data) ∧ (("a" : String) ∉ (emptyCache 0).state) ∧
    (∃ r1 r2, Cache.retrieve (emptyCache 0) "a" (some 1) = Except.ok r1 ∧
      Cache.retrieve r1.cache "a" none = Except.ok r2 ∧
      r1.fetches = 1 ∧ r2.fetches = 0 ∧ r1.fetches + r2.fetches = 1 ∧
      r2.ret = false) :=
  ⟨by decide, by decide,
   C9_retrieve_idempotent_fetch_count (emptyCache 0) "a" 1 none (by decide) (by decide)⟩

/-- C10: when the `Remote` reports the fetch as complete but no file exists
at the destination afterward, `Cache.retrieve` returns normally with the
miss-path value `true` (no exception), does not append the id to the LRU
state, and leaves the cache directory unchanged — so a non-raising
`retrieve` does not guarantee that the id is tracked or its file present. -/
theorem C10_completed_fetch_without_file (c : Cache) (item : String)
    (hslash : '/' ∉ item.data) (hmem : item ∉ c.state) :
    ∃ r, Cache.retrieve c item none = Except.ok r ∧ r.ret = true ∧
      r.fetches = 1 ∧ r.cache.state = c.state ∧ r.cache.disk = c.disk ∧
      item ∉ r.cache.state := by
  exact ⟨_, retrieve_miss_missing c item hslash hmem, rfl, rfl, rfl, rfl, hmem⟩

/-- C10 witness: the theorem at the empty cache with id `"a"` and a fetch
that leaves no file behind. -/
theorem C10_witness :
    ('/' ∉ "a".data) ∧ (("a" : String) ∉ (emptyCache 7).state) ∧
    (∃ r, Cache.retrieve (emptyCache 7) "a" none = Except.ok r ∧ r.ret = true ∧
      r.fetches = 1 ∧ r.cache.state = (emptyCache 7).state ∧
      r.cache.disk = (emptyCache 7).disk ∧ ("a" : String) ∉ r.cache.state) :=
  ⟨by decide, by decide,
   C10_completed_fetch_without_file (emptyCache 7) "a" (by decide) (by decide)⟩

/-- C7: after successfully retrieving N distinct content ids into a fresh
cache and running the closing trim with `max_items = K` (0 < K < N) and the
size and free-space limits disabled (policy value 0, i.e. not binding), the
persisted state is exactly the last K retrieved ids, in retrieval order
with the most-recently-used last. -/
theorem C7_trim_keeps_last_K_mru_last (ids : List String) (K free : Nat)
    (hnodup : ids.Nodup) (hK : 0 < K) (hKN : K < ids.length)
    (hslash : ∀ id ∈ ids, '/' ∉ id.data) :
    ∃ c1 c2, retrieveSeq (emptyCache free) ids = Except.ok c1 ∧
      Cache.trim { max_cache_size := 0, min_free_space := 0, max_items := K } c1
        = Except.ok c2 ∧
      c2.persisted = ids.drop (ids.length - K) := by
  obtain ⟨c1, hseq, hst, hdk⟩ := retrieveSeq_fresh ids (emptyCache free) hslash
    (fun i _ => by simp [emptyCache]) hnodup
  have hst1 : c1.state = ids := by rw [hst]; simp [emptyCache]
  have hdk1 : c1.disk = ids.map (fun i => (i, 1)) := by rw [hdk]; simp [emptyCache]
  have hfilter : c1.state.filter (fun f => hasFile c1.disk f) = c1.state := by
    apply List.filter_eq_self.mpr
    intro f hf
    rw [hdk1]
    exact hasFile_map_one ids f (hst1 ▸ hf)
  have hdrop : dropLostEntries c1 = c1 := by
    unfold dropLostEntries
    rw [hfilter]
  have hmem2 : ∀ d ∈ c1.disk, d.1 ∈ c1.state := by
    intro d hd
    rw [hdk1] at hd
    rw [hst1]
    obtain ⟨i, hi, hdi⟩ := List.mem_map.mp hd
    rw [← hdi]
    exact hi
  have hadopt : adoptUnknownFiles c1 = c1 := by
    unfold adoptUnknownFiles
    rw [adopt_foldl_id c1.disk c1.state hmem2]
  have hne : c1.state ≠ [] := by
    rw [hst1]
    intro h
    rw [h] at hKN
    simp at hKN
  have htrim : Cache.trim { max_cache_size := 0, min_free_space := 0, max_items := K } c1
      = Except.ok (Cache.save (trimCountLoop K c1)) := by
    unfold Cache.trim
    rw [hdrop, hadopt]
    have h0 : ({ max_cache_size := 0, min_free_space := 0, max_items := K } :
        CachePolicies).min_free_space = 0 := rfl
    rw [h0, trimFreeLoop_zero]
    simp [trimStep4, trimStep5, hne, hK.ne']
  refine ⟨c1, Cache.save (trimCountLoop K c1), hseq, htrim, ?_⟩
  have hpers : (Cache.save (trimCountLoop K c1)).persisted
      = (trimCountLoop K c1).state := rfl
  rw [hpers, trimCountLoop_state, hst1]

/-- C7 witness: the theorem at ids `["a", "b", "c"]` with `max_items = 2`. -/
theorem C7_witness :
    (["a", "b", "c"] : List String).Nodup ∧ 0 < 2 ∧
    2 < (["a", "b", "c"] : List String).length ∧
    (∀ id ∈ (["a", "b", "c"] : List String), '/' ∉ id.data) ∧
    (∃ c1 c2, retrieveSeq (emptyCache 0) ["a", "b", "c"] = Except.ok c1 ∧
      Cache.trim { max_cache_size := 0, min_free_space := 0, max_items := 2 } c1
        = Except.ok c2 ∧
      c2.persisted = (["a", "b", "c"] : List String).drop
        ((["a", "b", "c"] : List String).length - 2)) :=
  ⟨by decide, by decide, by decide, by decide,
   C7_trim_keeps_last_K_mru_last ["a", "b", "c"] 2 0 (by decide) (by decide)
     (by decide) (by decide)⟩

/-- C8: for every cache whose policies set `max_cache_size > 0` and whose
tracked blobs total more than `max_cache_size`, when `trim()` returns (no
`OSError`), the total size of the blobs still tracked is at most
`max_cache_size`, and the surviving LRU list is a suffix of the repaired
list — eviction proceeded oldest-first.  (The bound needs no assumption on
individual blob sizes: the loop stops only once the running total is within
the limit or the state is empty.) -/
theorem C8_trim_total_size_bound (c : Cache) (pol : CachePolicies) (c2 : Cache)
    (hmax : 0 < pol.max_cache_size)
    (hsum : pol.max_cache_size < trackedSize c)
    (htrim : Cache.trim pol c = Except.ok c2) :
    trackedSize c2 ≤ pol.max_cache_size ∧
    ∃ k, c2.state = (trimFreeLoop pol.min_free_space
      (adoptUnknownFiles (dropLostEntries c))).state.drop k := by
  unfold Cache.trim at htrim
  rcases hs4 : trimStep4 pol.max_cache_size
      (trimFreeLoop pol.min_free_space (adoptUnknownFiles (dropLostEntries c)))
    with e | c4 <;> rw [hs4] at htrim
  · cases htrim
  · have hc2 : Cache.save (trimStep5 pol.max_items c4) = c2 := Except.ok.inj htrim
    obtain ⟨hbound, k1, hk1⟩ := trimStep4_tracked pol.max_cache_size _ c4 hmax.ne' hs4
    constructor
    · calc trackedSize c2 = trackedSize (trimStep5 pol.max_items c4) := by
            rw [← hc2]; exact rfl
        _ ≤ trackedSize c4 := trimStep5_tracked_le pol.max_items c4
        _ ≤ pol.max_cache_size := hbound
    · obtain ⟨k2, hk2⟩ := trimStep5_state_drop pol.max_items c4
      refine ⟨k1 + k2, ?_⟩
      have hst2 : c2.state = (trimStep5 pol.max_items c4).state := by rw [← hc2]; rfl
      rw [hst2, hk2, hk1, List.drop_drop]

/-- C8 witness: the theorem at the two-blob cache (sizes 5 + 5 = 10) with
`max_cache_size = 6`; trimming evicts the oldest blob, leaving 5 ≤ 6. -/
theorem C8_witness :
    0 < (6 : Nat) ∧ (6 : Nat) < trackedSize twoBlobCache ∧
    (trackedSize twoBlobTrimmed ≤ 6 ∧
     ∃ k, twoBlobTrimmed.state = (trimFreeLoop 0
       (adoptUnknownFiles (dropLostEntries twoBlobCache))).state.drop k) :=
  ⟨by decide, by decide,
   C8_trim_total_size_bound twoBlobCache
     { max_cache_size := 6, min_free_space := 0, max_items := 0 }
     twoBlobTrimmed (by decide) (by decide) (by rfl)⟩

end RunTestFromArchive
